import Mathlib

/-!
Verification of the Qiling GDB snapshot client script
(`qiling/debugger/gdb/client_scripts/snapshots.py`).

The script drives a snapshot protocol over a synchronous text channel
(`gdb.execute('monitor snapshot;...', to_string=True)`).  We embed it
shallowly:

* strings are Lean `String`s, manipulated through `List Char` helpers that
  model the Python builtins used by the script (`str.splitlines`,
  `str.split(':')`, `int(s)`, `int(s, 16)`, `bytes.hex`, `bytes.fromhex`,
  substring membership, `os.path.dirname`);
* the command channel is a response oracle `resp : Nat → String` giving the
  response to the n-th command sent; each invoke returns the list of command
  strings it sent together with its outcome;
* the filesystem is a pair of boolean oracles (`os.path.exists`,
  `os.path.isdir`) plus a file-content oracle for `open(...).read()`;
* Python exceptions (`gdb.GdbError`, `ValueError`, `IndexError`) become an
  explicit `PyErr` value.

The Python-builtin models are ASCII-faithful: Python's `int` also accepts
non-ASCII decimal digits and a few non-ASCII whitespace characters, which
never occur in this protocol's traffic.
-/

namespace SnapshotClient

/-! ## Models of the Python string builtins used by the script -/

/-- Whitespace stripped by `int(...)` (ASCII part of `str.strip`). -/
def isPySpace (c : Char) : Bool :=
  c == ' ' || c == '\t' || c == '\n' || c == '\r' || c == '\x0b' || c == '\x0c'

/-- Strip leading and trailing whitespace, as `int(...)` does. -/
def stripChars (l : List Char) : List Char :=
  ((l.dropWhile isPySpace).reverse.dropWhile isPySpace).reverse

def isAsciiDigit (c : Char) : Bool := 48 ≤ c.toNat && c.toNat ≤ 57

def decDigitVal (c : Char) : Nat := c.toNat - 48

def isLowerHexLetter (c : Char) : Bool := 97 ≤ c.toNat && c.toNat ≤ 102

def isUpperHexLetter (c : Char) : Bool := 65 ≤ c.toNat && c.toNat ≤ 70

def isHexDigitB (c : Char) : Bool :=
  isAsciiDigit c || isLowerHexLetter c || isUpperHexLetter c

def hexDigitVal (c : Char) : Nat :=
  if isAsciiDigit c then c.toNat - 48
  else if isLowerHexLetter c then c.toNat - 87
  else c.toNat - 55

/-- Digit tail of a Python integer literal: digits with single underscores
allowed only between digits (`int('1_2') = 12`, `int('1__2')` fails). -/
def decCore (acc : Nat) : List Char → Option Nat
  | [] => some acc
  | c :: rest =>
      if c == '_' then
        match rest with
        | [] => none
        | d :: rest2 =>
            if isAsciiDigit d then decCore (acc * 10 + decDigitVal d) rest2 else none
      else if isAsciiDigit c then decCore (acc * 10 + decDigitVal c) rest else none

/-- Nonempty digit run; no leading underscore. -/
def decDigits : List Char → Option Nat
  | [] => none
  | c :: rest => if isAsciiDigit c then decCore (decDigitVal c) rest else none

def hexCore (acc : Nat) : List Char → Option Nat
  | [] => some acc
  | c :: rest =>
      if c == '_' then
        match rest with
        | [] => none
        | d :: rest2 =>
            if isHexDigitB d then hexCore (acc * 16 + hexDigitVal d) rest2 else none
      else if isHexDigitB c then hexCore (acc * 16 + hexDigitVal c) rest else none

def hexDigits : List Char → Option Nat
  | [] => none
  | c :: rest => if isHexDigitB c then hexCore (hexDigitVal c) rest else none

/-- Body of `int(s, 16)` after sign removal: optional `0x`/`0X`, one
underscore allowed right after the base marker. -/
def hexBody : List Char → Option Nat
  | '0' :: c :: rest =>
      if c == 'x' || c == 'X' then
        match rest with
        | '_' :: r2 => hexDigits r2
        | r => hexDigits r
      else hexDigits ('0' :: c :: rest)
  | l => hexDigits l

/-- Optional sign in front of a numeric body, as `int(...)` accepts. -/
def signedVal (body : List Char → Option Nat) : List Char → Option Int
  | '+' :: rest => (body rest).map (fun n => (n : Int))
  | '-' :: rest => (body rest).map (fun n => -(n : Int))
  | l => (body l).map (fun n => (n : Int))

/-- Model of Python `int(s)` (base 10); `none` models `ValueError`. -/
def pyIntDecL (l : List Char) : Option Int := signedVal decDigits (stripChars l)

def pyIntDec (s : String) : Option Int := pyIntDecL s.data

/-- Model of Python `int(s, 16)`; `none` models `ValueError`. -/
def pyIntHexL (l : List Char) : Option Int := signedVal hexBody (stripChars l)

def pyIntHex (s : String) : Option Int := pyIntHexL s.data

/-- Worker for `str.splitlines` over the common line boundaries
`\r\n`, `\r`, `\n` (no trailing empty line). -/
def splitlinesGo (cur : List Char) : List Char → List (List Char)
  | [] => if cur.isEmpty then [] else [cur.reverse]
  | '\r' :: '\n' :: rest => cur.reverse :: splitlinesGo [] rest
  | '\n' :: rest => cur.reverse :: splitlinesGo [] rest
  | '\r' :: rest => cur.reverse :: splitlinesGo [] rest
  | c :: rest => splitlinesGo (c :: cur) rest

def pySplitlinesL (l : List Char) : List (List Char) := splitlinesGo [] l

/-- Worker for Python `str.split(':')`: splits on every colon, keeping
empty pieces; the result is always nonempty. -/
def splitColonGo (cur : List Char) : List Char → List (List Char)
  | [] => [cur.reverse]
  | ':' :: rest => cur.reverse :: splitColonGo [] rest
  | c :: rest => splitColonGo (c :: cur) rest

def splitColonL (l : List Char) : List (List Char) := splitColonGo [] l

/-- `needle` begins `hay`? -/
def chListStartsWith : List Char → List Char → Bool
  | [], _ => true
  | _ :: _, [] => false
  | a :: as, b :: bs => a == b && chListStartsWith as bs

/-- Substring membership, modelling Python `needle in hay`. -/
def hasSubstrL (needle : List Char) : List Char → Bool
  | [] => needle.isEmpty
  | c :: rest => chListStartsWith needle (c :: rest) || hasSubstrL needle rest

/-- The protocol's error sentinel check: `'SNAPSHOT ERR' in s`. -/
def hasSentinel (s : String) : Bool := hasSubstrL "SNAPSHOT ERR".data s.data

/-- Lowercase hex digit character for a value `< 16`. -/
def hexCharOf (n : Nat) : Char :=
  if n < 10 then Char.ofNat (48 + n) else Char.ofNat (87 + n)

def byteHexL (v : Nat) : List Char := [hexCharOf (v / 16 % 16), hexCharOf (v % 16)]

/-- Model of Python `bytes.hex()`: two lowercase hex digits per byte. -/
def bytesHex (bs : List Nat) : String := String.mk ((bs.map byteHexL).flatten)

/-- Model of `bytes.fromhex`: pairs of hex digits, spaces allowed between
pairs; `none` models `ValueError`. -/
def bytesFromHexL : List Char → Option (List Nat)
  | [] => some []
  | ' ' :: rest => bytesFromHexL rest
  | a :: b :: rest =>
      if isHexDigitB a && isHexDigitB b then
        (bytesFromHexL rest).map (fun t => (hexDigitVal a * 16 + hexDigitVal b) :: t)
      else none
  | [_] => none

def bytesFromHex (s : String) : Option (List Nat) := bytesFromHexL s.data

/-- Model of `os.path.dirname` (posixpath): everything before the last
`/`, with trailing slashes stripped unless the head is all slashes. -/
def pyDirnameL (l : List Char) : List Char :=
  let i := l.length - (l.reverse.takeWhile (fun c => !(c == '/'))).length
  let head := l.take i
  if !head.isEmpty && head.any (fun c => !(c == '/')) then
    (head.reverse.dropWhile (fun c => c == '/')).reverse
  else head

def pyDirname (s : String) : String := String.mk (pyDirnameL s.data)

/-- Model of Python `range(start, stop, step)` for positive `step`. -/
def pyRange (start stop step : Nat) : List Nat :=
  List.range' start ((stop - start + step - 1) / step) step

/-! ## The protocol client (embedding of `snapshots.py`) -/

/-- Python exceptions surfacing from the script. -/
inductive PyErr where
  | gdbError (msg : String)
  | valueError
  | indexError
  | notImplemented
deriving DecidableEq

/-- One channel exchange: `gdb.execute(f'monitor snapshot;{cmd}', to_string=True)`.
`resp` is the response oracle indexed by the number of commands sent so
far; `tr` is the trace of command strings already sent. -/
def snapshotCmd (resp : Nat → String) (tr : List String) (cmd : String) :
    List String × String :=
  (tr ++ ["monitor snapshot;" ++ cmd], resp tr.length)

/-- Python-dict insertion: an existing key keeps its position and gets the
new value, a new key is appended. -/
def dictInsert (d : List (String × Int)) (k : String) (v : Int) :
    List (String × Int) :=
  match d with
  | [] => [(k, v)]
  | (k', v') :: rest =>
      if k' == k then (k', v) :: rest else (k', v') :: dictInsert rest k v

def dictHasKey (d : List (String × Int)) (k : String) : Bool :=
  d.any (fun p => p.1 == k)

def dictLookup (d : List (String × Int)) (k : String) : Option Int :=
  match d with
  | [] => none
  | (k', v) :: rest => if k' == k then some v else dictLookup rest k

/-- The dict comprehension `{x: int(v, 16) for x, v in ret_snaps}`:
each element must unpack to exactly two parts (`ValueError` otherwise),
the value must parse as base-16 (`ValueError` otherwise), and duplicate
keys silently overwrite. -/
def snapsDict : List (List String) → List (String × Int) →
    Except PyErr (List (String × Int))
  | [], d => .ok d
  | [x, v] :: rest, d =>
      match pyIntHex v with
      | some n => snapsDict rest (dictInsert d x n)
      | none => .error .valueError
  | _ :: _, _ => .error .valueError

/-- Parsing of the `info` response, from `get_snapshots_info`:
`[x.split(':') for x in ret_info.splitlines() if x]` followed by the dict
comprehension above. -/
def parseSnapshotsInfo (s : String) : Except PyErr (List (String × Int)) :=
  let ls := (pySplitlinesL s.data).filter (fun x => !x.isEmpty)
  snapsDict (ls.map (fun x => (splitColonL x).map (fun cs => String.mk cs))) []

/-- `get_snapshots_info()`: sends `info` and parses the response. -/
def getSnapshotsInfo (resp : Nat → String) (tr : List String) :
    List String × Except PyErr (List (String × Int)) :=
  let (tr', s) := snapshotCmd resp tr "info"
  (tr', parseSnapshotsInfo s)

/-- Handling of a `state:start` chunk acknowledgment in
`SnapshotLoadCommand.invoke`: `int(...)` first (a non-numeric response is
a `ValueError`), then the count must equal the bytes sent. -/
def startAck (s : String) (l : Nat) : Except PyErr Unit :=
  match pyIntDec s with
  | none => .error .valueError
  | some k =>
      if k != (l : Int) then
        .error (.gdbError
          ("Error sending snapshot data (State: start, len_recv: " ++
            toString k ++ ")!"))
      else .ok ()

/-- Handling of a `state:cont` chunk acknowledgment, same shape with the
loop's error message. -/
def contAck (s : String) (l : Nat) : Except PyErr Unit :=
  match pyIntDec s with
  | none => .error .valueError
  | some k =>
      if k != (l : Int) then .error (.gdbError "Error sending snapshot data!")
      else .ok ()

/-- The `for i in rng:` loop of `SnapshotLoadCommand.invoke`: one
`state:cont` command per offset, aborting on the first bad ack.  The
optional `tqdm` wrapper around `rng` only renders progress and does not
change the iteration. -/
def contLoop (resp : Nat → String) (snap : List Nat) :
    List Nat → List String → List String × Except PyErr Unit
  | [], tr => (tr, .ok ())
  | i :: rest, tr =>
      let chunk := (snap.drop i).take 1024
      let (tr', r) := snapshotCmd resp tr
        ("load;data:" ++ bytesHex chunk ++ ";state:cont")
      match contAck r chunk.length with
      | .error e => (tr', .error e)
      | .ok _ => contLoop resp snap rest tr'

/-- `SnapshotLoadCommand.invoke`: argument check, file check, the chunked
upload (first chunk `state:start`, then the loop, then `state:done` with
the optional transport name), and the sentinel check on the final
response. -/
def loadInvoke (resp : Nat → String) (pathExistsO : String → Bool)
    (readFileO : String → List Nat) (args : List String) :
    List String × Except PyErr String :=
  match args with
  | [] => ([], .error (.gdbError "Usage: snapshot load file_path [name]"))
  | fIn :: rest =>
    if rest.length > 1 then
      ([], .error (.gdbError "Usage: snapshot load file_path [name]"))
    else if !pathExistsO fIn then
      ([], .error (.gdbError ("Snapshot file " ++ fIn ++ " doesn\x27t exist!")))
    else
      let snap := readFileO fIn
      let startChunk := snap.take 1024
      let (tr1, r1) := snapshotCmd resp []
        ("load;data:" ++ bytesHex startChunk ++ ";state:start")
      match startAck r1 startChunk.length with
      | .error e => (tr1, .error e)
      | .ok _ =>
        match contLoop resp snap (pyRange 1024 snap.length 1024) tr1 with
        | (tr2, .error e) => (tr2, .error e)
        | (tr2, .ok _) =>
          let cmd := "load;state:done" ++
            (match rest with
             | [nm] => ";name:" ++ nm
             | _ => "")
          let (tr3, retName) := snapshotCmd resp tr2 cmd
          if hasSentinel retName then
            (tr3, .error (.gdbError "Saving snapshot failed!"))
          else (tr3, .ok retName)

/-- `SnapshotRestoreCommand.invoke`: usage check, client-side `NotFound`
check against a fresh catalog, then the `restore` command whose response
must echo the name and carry no sentinel. -/
def restoreInvoke (resp : Nat → String) (args : List String) :
    List String × Except PyErr String :=
  if args.length != 1 then
    ([], .error (.gdbError "Usage: snapshot restore $snapshot_name"))
  else
    let name := args.headD ""
    let (tr1, infoRes) := getSnapshotsInfo resp []
    match infoRes with
    | .error e => (tr1, .error e)
    | .ok cat =>
      if !dictHasKey cat name then
        (tr1, .error (.gdbError ("Snapshot " ++ name ++ " not found!")))
      else
        let (tr2, retName) := snapshotCmd resp tr1 ("restore;name:" ++ name)
        if (retName != name) || hasSentinel retName then
          (tr2, .error (.gdbError ("Restoring snapshot failed! " ++ retName)))
        else (tr2, .ok retName)

/-- Handling of the `save` response: the sentinel check comes first, and
only a sentinel-free response reaches `bytes.fromhex`.  The boolean
records whether `bytes.fromhex` was invoked. -/
def saveRespHandle (s : String) : Bool × Except PyErr (List Nat) :=
  if hasSentinel s then (false, .error (.gdbError "Saving snapshot failed!"))
  else
    (true,
      match bytesFromHex s with
      | some bs => .ok bs
      | none => .error .valueError)

/-- `SnapshotSaveCommand.invoke`.  With two arguments the script computes
`f_out = argv[2]` on a two-element `argv`, an `IndexError`, before the
catalog query.  The `os.path.isdir(f_out)` branch computes a join whose
result is discarded, so it has no observable effect.  On success the
result is the output path and the decoded bytes written to it. -/
def saveInvoke (resp : Nat → String) (pathExistsO : String → Bool)
    (_isDirO : String → Bool) (args : List String) :
    List String × Bool × Except PyErr (String × List Nat) :=
  match args with
  | [] => ([], false, .error (.gdbError "Usage: snapshot save snapshot_name [file path]"))
  | name :: rest =>
    if rest.length > 1 then
      ([], false, .error (.gdbError "Usage: snapshot save snapshot_name [file path]"))
    else
      match (if rest.isEmpty then some ("./" ++ name ++ ".qsp")
             else (name :: rest).get? 2) with
      | none => ([], false, .error .indexError)
      | some fOut =>
        let (tr1, infoRes) := getSnapshotsInfo resp []
        match infoRes with
        | .error e => (tr1, false, .error e)
        | .ok cat =>
          if !dictHasKey cat name then
            (tr1, false, .error (.gdbError ("Snapshot " ++ name ++ " not found!")))
          else if !pathExistsO (pyDirname fOut) then
            (tr1, false,
              .error (.gdbError ("Directory " ++ pyDirname fOut ++ " does not exist!")))
          else
            let (tr2, snapData) := snapshotCmd resp tr1 ("save;name:" ++ name)
            let (att, r) := saveRespHandle snapData
            (tr2, att, r.map (fun bs => (fOut, bs)))

/-- `SnapshotDeleteCommand` (source lines 160–164) defines only
`__init__` and no `invoke` method; invoking the registered command makes
GDB raise "Python command object missing 'invoke' method." without
touching the channel.  The empty trace records that nothing is sent. -/
def deleteInvoke (_resp : Nat → String) (_args : List String) :
    List String × Except PyErr Unit :=
  ([], .error .notImplemented)

/-- `SnapshotCreateCommand.invoke` response acceptance: with a requested
name the echo must match, and in any case the sentinel must be absent. -/
def createAccept (name : Option String) (retName : String) : Bool :=
  !((match name with
     | some nm => retName != nm
     | none => false) || hasSentinel retName)

/-! ## Derived views of the chunking used by `load` -/

/-- The data chunks `load` sends: `snap_data[:1024]`, then
`snap_data[i:i+1024]` for `i in range(1024, len(snap_data), 1024)`. -/
def loadChunks (B : List Nat) : List (List Nat) :=
  B.take 1024 :: (pyRange 1024 B.length 1024).map (fun i => (B.drop i).take 1024)

/-- The offsets of those chunks. -/
def chunkOffsets (B : List Nat) : List Nat := 0 :: pyRange 1024 B.length 1024

/-- The trace string of the `state:start` chunk command. -/
def startCmdStr (B : List Nat) : String :=
  "monitor snapshot;" ++ ("load;data:" ++ bytesHex (B.take 1024) ++ ";state:start")

/-- The trace string of a `state:cont` chunk command at offset `i`. -/
def contCmdStr (B : List Nat) (i : Nat) : String :=
  "monitor snapshot;" ++ ("load;data:" ++ bytesHex ((B.drop i).take 1024) ++ ";state:cont")

/-- The trace string of the `state:done` command (with optional name). -/
def doneCmdStr (rest : List String) : String :=
  "monitor snapshot;" ++
    ("load;state:done" ++
      (match rest with
       | [nm] => ";name:" ++ nm
       | _ => ""))

def loadCmds (B : List Nat) : List String :=
  startCmdStr B :: (pyRange 1024 B.length 1024).map (contCmdStr B)

/-- The last chunk length as the spec states it: `n mod 1024`, or `1024`
for a positive multiple of 1024 (and the whole of `n` when `n < 1024`). -/
def lastChunkLenSpec (n : Nat) : Nat :=
  if n % 1024 = 0 ∧ n ≠ 0 then 1024 else n % 1024

/-- Modelled from the spec ("this check always precedes any attempt to
interpret the response as a number"): chunk-ack handling that classifies a
sentinel-bearing response as a remote error before integer parsing.  Used
only to compare against the code's `contAck`. -/
def specChunkAck (s : String) (l : Nat) : Except PyErr Unit :=
  if hasSentinel s then .error (.gdbError s) else contAck s l

/-- Concrete response oracle used by witnesses: first response `a`, every
later response `b`. -/
def twoResp (a b : String) : Nat → String := fun n => if n = 0 then a else b

/-- Concrete response oracle used by witnesses: the `n`-th response is the
`n`-th list element (empty string past the end). -/
def listResp (l : List String) : Nat → String := fun n => l.getD n ""

/-- Filesystem oracle for witnesses: every path exists. -/
def truePath : String → Bool := fun _ => true

/-- File-content oracle for witnesses: every file reads as `B`. -/
def constFile (B : List Nat) : String → List Nat := fun _ => B

/-- A record shape the dict comprehension of `get_snapshots_info` accepts:
exactly two parts, the second parsing in base 16. -/
def splitRecordOK : List String → Bool
  | [_, v] => (pyIntHex v).isSome
  | _ => false

/-- Well-formedness of a single non-empty `info` line: exactly one `:`
separator and a valid base-16 offset after it. -/
def lineWellFormed (l : List Char) : Bool :=
  splitRecordOK ((splitColonL l).map (fun cs => String.mk cs))

/-! ## Helper lemmas -/

theorem chListStartsWith_mem {nd l : List Char} (h : chListStartsWith nd l = true) :
    ∀ c ∈ nd, c ∈ l := by
  induction nd generalizing l with
  | nil => intro c hc; exact absurd hc (List.not_mem_nil c)
  | cons a as ih =>
    cases l with
    | nil => simp [chListStartsWith] at h
    | cons b bs =>
      simp only [chListStartsWith, Bool.and_eq_true, beq_iff_eq] at h
      intro c hc
      rcases List.mem_cons.mp hc with rfl | hc
      · rw [h.1]; exact List.mem_cons_self b bs
      · exact List.mem_cons_of_mem b (ih h.2 c hc)

theorem hasSubstrL_mem {nd l : List Char} (h : hasSubstrL nd l = true) :
    ∀ c ∈ nd, c ∈ l := by
  induction l with
  | nil =>
    rw [hasSubstrL] at h
    intro c hc
    rw [List.isEmpty_iff.mp h] at hc
    exact absurd hc (List.not_mem_nil c)
  | cons b bs ih =>
    rw [hasSubstrL] at h
    simp only [Bool.or_eq_true] at h
    rcases h with h1 | h2
    · exact chListStartsWith_mem h1
    · intro c hc; exact List.mem_cons_of_mem b (ih h2 c hc)

theorem mem_dropWhile_of_neg {p : Char → Bool} {l : List Char} {c : Char}
    (hc : c ∈ l) (hp : p c = false) : c ∈ l.dropWhile p := by
  induction l with
  | nil => exact absurd hc (List.not_mem_nil c)
  | cons a as ih =>
    rw [List.dropWhile_cons]
    by_cases ha : p a = true
    · rw [if_pos ha]
      rcases List.mem_cons.mp hc with rfl | h
      · rw [ha] at hp; cases hp
      · exact ih h
    · rw [if_neg ha]
      exact hc

theorem mem_stripChars {l : List Char} {c : Char} (hc : c ∈ l)
    (hp : isPySpace c = false) : c ∈ stripChars l := by
  unfold stripChars
  rw [List.mem_reverse]
  apply mem_dropWhile_of_neg _ hp
  rw [List.mem_reverse]
  exact mem_dropWhile_of_neg hc hp

theorem decCore_none_of_bad {c : Char} (hd : isAsciiDigit c = false) (hu : c ≠ '_') :
    ∀ (acc : Nat) (l : List Char), c ∈ l → decCore acc l = none := by
  intro acc l
  induction acc, l using decCore.induct with
  | case1 acc => intro hc; exact absurd hc (List.not_mem_nil c)
  | case2 acc d hdu =>
    intro _
    rw [decCore.eq_def]
    dsimp only
    rw [if_pos hdu]
  | case3 acc d hdu d1 rest2 hdig ih =>
    intro hc
    rw [decCore.eq_def]
    dsimp only
    rw [if_pos hdu, if_pos hdig]
    apply ih
    rcases List.mem_cons.mp hc with rfl | hc
    · exact absurd (beq_iff_eq.mp hdu) hu
    · rcases List.mem_cons.mp hc with rfl | hc
      · rw [hdig] at hd; cases hd
      · exact hc
  | case4 acc d hdu d1 rest2 hnd =>
    intro _
    rw [decCore.eq_def]
    dsimp only
    rw [if_pos hdu, if_neg hnd]
  | case5 acc d rest2 hne hdig ih =>
    intro hc
    rw [decCore.eq_def]
    dsimp only
    rw [if_neg hne, if_pos hdig]
    apply ih
    rcases List.mem_cons.mp hc with rfl | hc
    · rw [hdig] at hd; cases hd
    · exact hc
  | case6 acc d rest2 hne hnd =>
    intro _
    rw [decCore.eq_def]
    dsimp only
    rw [if_neg hne, if_neg hnd]

theorem decDigits_none_of_bad {c : Char} (hd : isAsciiDigit c = false) (hu : c ≠ '_')
    {l : List Char} (hc : c ∈ l) : decDigits l = none := by
  cases l with
  | nil => exact absurd hc (List.not_mem_nil c)
  | cons a rest =>
    rw [decDigits]
    by_cases ha : isAsciiDigit a = true
    · rw [if_pos ha]
      rcases List.mem_cons.mp hc with rfl | hc
      · rw [ha] at hd; cases hd
      · exact decCore_none_of_bad hd hu _ rest hc
    · rw [if_neg ha]

theorem pyIntDecL_none_of_bad {c : Char} (hd : isAsciiDigit c = false) (hu : c ≠ '_')
    (hplus : c ≠ '+') (hminus : c ≠ '-') (hsp : isPySpace c = false)
    {l : List Char} (hc : c ∈ l) : pyIntDecL l = none := by
  have hmem : c ∈ stripChars l := mem_stripChars hc hsp
  rw [pyIntDecL, signedVal.eq_def]
  split
  case _ rest heq =>
    rw [heq] at hmem
    rcases List.mem_cons.mp hmem with rfl | hm
    · exact absurd rfl hplus
    · rw [decDigits_none_of_bad hd hu hm]; rfl
  case _ rest heq =>
    rw [heq] at hmem
    rcases List.mem_cons.mp hmem with rfl | hm
    · exact absurd rfl hminus
    · rw [decDigits_none_of_bad hd hu hm]; rfl
  case _ =>
    rw [decDigits_none_of_bad hd hu hmem]; rfl

theorem hasSentinel_mem_S {s : String} (h : hasSentinel s = true) : 'S' ∈ s.data :=
  hasSubstrL_mem h 'S' (by decide)

/-- A sentinel-bearing response can never parse as a Python integer: the
`int(...)` call in the load loop raises `ValueError` on it. -/
theorem pyIntDec_none_of_sentinel {s : String} (h : hasSentinel s = true) :
    pyIntDec s = none :=
  pyIntDecL_none_of_bad (by decide) (by decide) (by decide) (by decide) (by decide)
    (hasSentinel_mem_S h)

theorem contAck_of_sentinel {s : String} {l : Nat} (h : hasSentinel s = true) :
    contAck s l = .error .valueError := by
  rw [contAck, pyIntDec_none_of_sentinel h]

theorem startAck_of_sentinel {s : String} {l : Nat} (h : hasSentinel s = true) :
    startAck s l = .error .valueError := by
  rw [startAck, pyIntDec_none_of_sentinel h]

/-- When every acknowledgment in the `state:cont` loop parses to the byte
count just sent, the loop sends one command per offset and succeeds. -/
theorem contLoop_ok (resp : Nat → String) (snap : List Nat) :
    ∀ (offs : List Nat) (tr : List String),
      (∀ j, j < offs.length →
        pyIntDec (resp (tr.length + j)) =
          some (((snap.drop (offs.getD j 0)).take 1024).length : Int)) →
      contLoop resp snap offs tr = (tr ++ offs.map (contCmdStr snap), .ok ()) := by
  intro offs
  induction offs with
  | nil => intro tr _; simp [contLoop]
  | cons i rest ih =>
    intro tr h
    have h0 : pyIntDec (resp tr.length) =
        some (((snap.drop i).take 1024).length : Int) := by
      simpa using h 0 (Nat.succ_pos _)
    rw [contLoop]
    rw [show snapshotCmd resp tr
        ("load;data:" ++ bytesHex ((snap.drop i).take 1024) ++ ";state:cont") =
        (tr ++ [contCmdStr snap i], resp tr.length) from rfl]
    dsimp only
    unfold contAck
    rw [h0]
    dsimp only
    rw [if_neg (by simp)]
    dsimp only
    have hshift : ∀ j, j < rest.length →
        pyIntDec (resp ((tr ++ [contCmdStr snap i]).length + j)) =
          some (((snap.drop (rest.getD j 0)).take 1024).length : Int) := by
      intro j hj
      have h' := h (j + 1) (by simpa using Nat.succ_lt_succ hj)
      rw [List.getD_cons_succ] at h'
      have hidx : tr.length + (j + 1) = (tr ++ [contCmdStr snap i]).length + j := by
        simp [List.length_append]
        omega
      rw [hidx] at h'
      exact h'
    rw [ih (tr ++ [contCmdStr snap i]) hshift]
    simp [contCmdStr]

/-- If the acknowledgments are correct before chunk `k` of the loop and the
`k`-th acknowledgment check fails, the loop stops right after the `k`-th
command: the offsets after `k` are never sent. -/
theorem contLoop_fail (resp : Nat → String) (snap : List Nat) {e : PyErr} :
    ∀ (offs : List Nat) (k : Nat) (tr : List String), k < offs.length →
      (∀ j, j < k →
        pyIntDec (resp (tr.length + j)) =
          some (((snap.drop (offs.getD j 0)).take 1024).length : Int)) →
      contAck (resp (tr.length + k)) ((snap.drop (offs.getD k 0)).take 1024).length =
        .error e →
      contLoop resp snap offs tr =
        (tr ++ (offs.take (k + 1)).map (contCmdStr snap), .error e) := by
  intro offs
  induction offs with
  | nil => intro k tr hk _ _; exact absurd hk (Nat.not_lt_zero k)
  | cons i rest ih =>
    intro k tr hk hprev hbad
    rw [contLoop]
    rw [show snapshotCmd resp tr
        ("load;data:" ++ bytesHex ((snap.drop i).take 1024) ++ ";state:cont") =
        (tr ++ [contCmdStr snap i], resp tr.length) from rfl]
    dsimp only
    cases k with
    | zero =>
      rw [List.getD_cons_zero, Nat.add_zero] at hbad
      rw [hbad]
      simp [contCmdStr]
    | succ k' =>
      have h0 : pyIntDec (resp tr.length) =
          some (((snap.drop i).take 1024).length : Int) := by
        simpa using hprev 0 (Nat.succ_pos _)
      unfold contAck
      rw [h0]
      dsimp only
      rw [if_neg (by simp)]
      dsimp only
      have hlen : (tr ++ [contCmdStr snap i]).length = tr.length + 1 := by
        simp
      have hshift : ∀ j, j < k' →
          pyIntDec (resp ((tr ++ [contCmdStr snap i]).length + j)) =
            some (((snap.drop (rest.getD j 0)).take 1024).length : Int) := by
        intro j hj
        have h' := hprev (j + 1) (Nat.succ_lt_succ hj)
        rw [List.getD_cons_succ] at h'
        rw [hlen]
        rw [show tr.length + 1 + j = tr.length + (j + 1) by omega]
        exact h'
      have hbad' :
          contAck (resp ((tr ++ [contCmdStr snap i]).length + k'))
            ((snap.drop (rest.getD k' 0)).take 1024).length = .error e := by
        rw [List.getD_cons_succ] at hbad
        rw [hlen, show tr.length + 1 + k' = tr.length + (k' + 1) by omega]
        exact hbad
      rw [ih k' (tr ++ [contCmdStr snap i]) (by simpa using Nat.lt_of_succ_lt_succ hk)
        hshift hbad']
      simp [contCmdStr]

/-- Concatenating the 1024-byte windows starting at `s` recovers the
corresponding segment of the blob. -/
theorem flatten_chunks_window (B : List Nat) :
    ∀ (k s : Nat),
      ((List.range' s k 1024).map (fun i => (B.drop i).take 1024)).flatten =
        (B.drop s).take (1024 * k) := by
  intro k
  induction k with
  | zero => intro s; simp
  | succ k ih =>
    intro s
    rw [List.range'_succ]
    simp only [List.map_cons, List.flatten_cons]
    rw [ih (s + 1024), ← List.drop_drop]
    rw [Nat.mul_succ, Nat.add_comm (1024 * k) 1024, List.take_add]

/-- The chunks sent by `load` concatenate back to the blob: ascending
offsets, nothing skipped, nothing reordered. -/
theorem loadChunks_flatten (B : List Nat) : (loadChunks B).flatten = B := by
  rw [loadChunks]
  simp only [List.flatten_cons]
  rw [pyRange, flatten_chunks_window, ← List.take_add]
  apply List.take_of_length_le
  omega

theorem loadChunks_length (B : List Nat) :
    (loadChunks B).length = 1 + (B.length - 1024 + 1023) / 1024 := by
  simp [loadChunks, pyRange]
  omega

/-- The chunk count, in closed form: `max 1 ⌈n / 1024⌉`. -/
theorem loadChunks_count (B : List Nat) :
    (loadChunks B).length = max 1 ((B.length + 1023) / 1024) := by
  rw [loadChunks_length]
  omega

/-- Chunk lengths sum to the blob length. -/
theorem loadChunks_sum (B : List Nat) :
    ((loadChunks B).map List.length).sum = B.length := by
  rw [← List.length_flatten, loadChunks_flatten]

/-- The length of the last chunk matches the spec's closed form. -/
theorem loadChunks_lastLen (B : List Nat) :
    ((loadChunks B).getLastD []).length = lastChunkLenSpec B.length := by
  cases hc : (B.length - 1024 + 1024 - 1) / 1024 with
  | zero =>
    rw [loadChunks, pyRange, hc]
    simp only [List.range'_zero, List.map_nil]
    rw [show ([B.take 1024].getLastD []) = B.take 1024 from rfl]
    simp only [List.length_take, lastChunkLenSpec]
    split <;> omega
  | succ c' =>
    rw [loadChunks, pyRange, hc]
    rw [List.range'_concat, List.map_append]
    simp only [List.map_cons, List.map_nil]
    rw [← List.cons_append, List.getLastD_concat]
    simp only [List.length_take, List.length_drop, lastChunkLenSpec]
    split <;> omega

/-- The chunk offsets form the arithmetic progression
`0, 1024, 2048, ...` of length `(loadChunks B).length`. -/
theorem chunkOffsets_eq_range' (B : List Nat) :
    chunkOffsets B = List.range' 0 ((loadChunks B).length) 1024 := by
  rw [chunkOffsets, loadChunks]
  simp only [List.length_cons, List.length_map, pyRange, List.length_range']
  rw [List.range'_succ]

theorem loadChunks_eq_map (B : List Nat) :
    loadChunks B = (chunkOffsets B).map (fun i => (B.drop i).take 1024) := by
  rw [loadChunks, chunkOffsets]
  simp

theorem dictLookup_dictInsert_self (d : List (String × Int)) (k : String) (v : Int) :
    dictLookup (dictInsert d k v) k = some v := by
  induction d with
  | nil => simp [dictInsert, dictLookup]
  | cons p rest ih =>
    obtain ⟨k', v'⟩ := p
    rw [dictInsert]
    by_cases h : (k' == k) = true
    · rw [if_pos h, dictLookup, if_pos h]
    · rw [if_neg h, dictLookup, if_neg h]
      exact ih

/-- If some record of the split `info` response is malformed (not exactly
two parts, or a non-hex offset), the dict comprehension raises
`ValueError`, whatever the accumulator holds. -/
theorem snapsDict_err :
    ∀ (splits : List (List String)) (d : List (String × Int)),
      (∃ e ∈ splits, splitRecordOK e = false) →
      snapsDict splits d = .error .valueError := by
  intro splits
  induction splits with
  | nil =>
    intro d h
    rcases h with ⟨e, he, _⟩
    exact absurd he (List.not_mem_nil e)
  | cons a rest ih =>
    intro d h
    rcases a with _ | ⟨x, a2⟩
    · exact rfl
    · rcases a2 with _ | ⟨v, a3⟩
      · exact rfl
      · rcases a3 with _ | ⟨w, a4⟩
        · rw [show snapsDict ([x, v] :: rest) d =
              (match pyIntHex v with
               | some n => snapsDict rest (dictInsert d x n)
               | none => .error .valueError) from rfl]
          cases hv : pyIntHex v with
          | none => rfl
          | some n =>
            dsimp only
            apply ih
            rcases h with ⟨e, he, hbad⟩
            rcases List.mem_cons.mp he with rfl | he2
            · rw [show splitRecordOK [x, v] = (pyIntHex v).isSome from rfl, hv] at hbad
              simp at hbad
            · exact ⟨e, he2, hbad⟩
        · exact rfl

/-- Any chunk command string begins `monitor snapshot;load;d...`. -/
theorem take23_loadData (x : String) :
    ("monitor snapshot;" ++ ("load;data:" ++ x)).data.take 23 =
      "monitor snapshot;load;d".data := rfl

/-- The done command string begins `monitor snapshot;load;s...`. -/
theorem take23_done (r : List String) :
    (doneCmdStr r).data.take 23 = "monitor snapshot;load;s".data := rfl

theorem loadData_ne_done (x : String) (r : List String) :
    ("monitor snapshot;" ++ ("load;data:" ++ x)) ≠ doneCmdStr r := by
  intro he
  have h := take23_loadData x
  rw [he, take23_done] at h
  exact absurd h (by decide)

theorem startCmd_ne_done (B : List Nat) (r : List String) :
    startCmdStr B ≠ doneCmdStr r := by
  rw [startCmdStr, String.append_assoc]
  exact loadData_ne_done _ r

theorem contCmd_ne_done (B : List Nat) (i : Nat) (r : List String) :
    contCmdStr B i ≠ doneCmdStr r := by
  rw [contCmdStr, String.append_assoc]
  exact loadData_ne_done _ r

/-- The `state:done` command is not among the data-chunk commands. -/
theorem done_not_mem_loadCmds (B : List Nat) (r : List String) :
    doneCmdStr r ∉ loadCmds B := by
  intro hmem
  rw [loadCmds] at hmem
  rcases List.mem_cons.mp hmem with he | hmem
  · exact startCmd_ne_done B r he.symm
  · rcases List.mem_map.mp hmem with ⟨i, _, he⟩
    exact contCmd_ne_done B i r he

/-! ## Claim theorems -/

/-- C10: a `save` invocation with exactly two arguments (name and output
path) computes `argv[2]` on a two-element argument list and dies with an
`IndexError` before the catalog is queried or any command is sent (empty
trace); `bytes.fromhex` is never reached and the caller-supplied path is
never used (the outcome does not depend on `path`). -/
theorem c10_save_two_args_index_error (resp : Nat → String)
    (pe isd : String → Bool) (name path : String) :
    saveInvoke resp pe isd [name, path] = ([], false, .error .indexError) := rfl

/-- C6 (code bug): `SnapshotDeleteCommand` registers a `snapshot delete`
command whose class body defines no `invoke` method at all, so invoking it
performs no existence check and sends no command through the channel —
GDB fails the call as unimplemented. -/
theorem c6_delete_unimplemented (resp : Nat → String) (args : List String) :
    deleteInvoke resp args = ([], .error .notImplemented) := rfl

/-- C5 counterexample: an `info` response with the same name on two
records parses successfully — no protocol fault is raised; the catalog is
silently deduplicated to the later record. -/
theorem c5_duplicate_names_counterexample :
    parseSnapshotsInfo "a:1\na:2" = .ok [("a", 2)] := rfl

/-- C5 (amended): duplicate names in the `info` response are silently
deduplicated by the dict comprehension — the last record's offset wins —
rather than being reported as a protocol fault.  The first conjunct shows
the duplicated two-record response parses to a one-entry catalog; the
last conjunct shows the dict-insert mechanism keeps the latest value. -/
theorem c5_duplicate_names_last_wins :
    ((pySplitlinesL ("a:1\na:2").data).filter (fun x => !x.isEmpty)).length = 2 ∧
    parseSnapshotsInfo "a:1\na:2" = .ok [("a", 2)] ∧
    ∀ (d : List (String × Int)) (x : String) (v1 v2 : Int),
      dictLookup (dictInsert (dictInsert d x v1) x v2) x = some v2 := by
  refine ⟨rfl, rfl, ?_⟩
  intro d x v1 v2
  exact dictLookup_dictInsert_self (dictInsert d x v1) x v2

/-- C1 counterexample: a chunk acknowledgment containing the error
sentinel is handed to `int(...)` directly — there is no sentinel check
before numeric parsing in the load loop.  Concretely, running `load` with
every response equal to `SNAPSHOT ERR` raises `ValueError` from the
`int()` call (the code's `contAck`/`startAck` path), whereas the
spec-modelled order (`specChunkAck`) yields the sentinel-classified
error; the two outcomes differ. -/
theorem c1_sentinel_order_counterexample :
    hasSentinel "SNAPSHOT ERR" = true ∧
    contAck "SNAPSHOT ERR" 1024 = .error .valueError ∧
    specChunkAck "SNAPSHOT ERR" 1024 = .error (.gdbError "SNAPSHOT ERR") ∧
    PyErr.valueError ≠ PyErr.gdbError "SNAPSHOT ERR" ∧
    loadInvoke (fun _ => "SNAPSHOT ERR") (fun _ => true) (fun _ => [9]) ["f"] =
      (["monitor snapshot;load;data:09;state:start"], .error .valueError) := by
  exact ⟨rfl, rfl, rfl, by decide, rfl⟩

/-- C1 (amended): for `save` the sentinel check does precede any attempt
to hex-decode the response; but for chunk acknowledgments during `load`
no sentinel check is performed before decimal parsing — a sentinel-bearing
acknowledgment is passed to `int(...)`, which necessarily fails, so the
session dies with `ValueError` instead of a sentinel-classified error. -/
theorem c1_sentinel_order_amended :
    (∀ s : String, hasSentinel s = true →
      saveRespHandle s = (false, .error (.gdbError "Saving snapshot failed!"))) ∧
    (∀ (s : String) (l : Nat), hasSentinel s = true →
      contAck s l = .error .valueError ∧ startAck s l = .error .valueError) := by
  constructor
  · intro s h
    rw [saveRespHandle, if_pos h]
  · intro s l h
    exact ⟨contAck_of_sentinel h, startAck_of_sentinel h⟩

/-- Witness for C1 (amended) at a concrete sentinel-bearing response. -/
theorem c1_sentinel_order_amended_witness :
    hasSentinel "xx SNAPSHOT ERR yy" = true ∧
    saveRespHandle "xx SNAPSHOT ERR yy" =
      (false, .error (.gdbError "Saving snapshot failed!")) ∧
    contAck "xx SNAPSHOT ERR yy" 7 = .error .valueError ∧
    startAck "xx SNAPSHOT ERR yy" 7 = .error .valueError :=
  ⟨by decide,
   c1_sentinel_order_amended.1 "xx SNAPSHOT ERR yy" (by decide),
   (c1_sentinel_order_amended.2 "xx SNAPSHOT ERR yy" 7 (by decide)).1,
   (c1_sentinel_order_amended.2 "xx SNAPSHOT ERR yy" 7 (by decide)).2⟩

/-- C4: the `info` response is parsed by splitting into non-empty lines
and each line at `:` into a name and a base-16 offset; an all-empty
response yields the valid empty catalog, while any non-empty line without
exactly one separator or with a non-hex offset raises `ValueError` (the
malformed-response fault), which is distinct from the empty catalog. -/
theorem c4_info_parse_faults :
    (∀ s : String,
      (pySplitlinesL s.data).filter (fun x => !x.isEmpty) = [] →
      parseSnapshotsInfo s = .ok []) ∧
    (∀ s : String,
      (∃ l ∈ (pySplitlinesL s.data).filter (fun x => !x.isEmpty),
        lineWellFormed l = false) →
      parseSnapshotsInfo s = .error .valueError) := by
  constructor
  · intro s h
    simp only [parseSnapshotsInfo]
    rw [h]
    rfl
  · intro s h
    simp only [parseSnapshotsInfo]
    apply snapsDict_err
    rcases h with ⟨l, hl, hbad⟩
    exact ⟨(splitColonL l).map (fun cs => String.mk cs),
      List.mem_map_of_mem _ hl, hbad⟩

/-- Witness for C4: the empty response gives the empty catalog; a line
with no separator, a line with two separators, and a line with a non-hex
offset each fault. -/
theorem c4_info_parse_faults_witness :
    parseSnapshotsInfo "" = .ok [] ∧
    parseSnapshotsInfo "abc" = .error .valueError ∧
    parseSnapshotsInfo "a:b:c" = .error .valueError ∧
    parseSnapshotsInfo "a:xyz" = .error .valueError :=
  ⟨c4_info_parse_faults.1 "" rfl,
   c4_info_parse_faults.2 "abc" ⟨"abc".data, by decide, by decide⟩,
   c4_info_parse_faults.2 "a:b:c" ⟨"a:b:c".data, by decide, by decide⟩,
   c4_info_parse_faults.2 "a:xyz" ⟨"a:xyz".data, by decide, by decide⟩⟩

/-- C8: a `save` invocation whose (sentinel-bearing) response arrives
fails with the remote-rejected error and `bytes.fromhex` is never invoked
(the boolean component stays `false`); only the `info` and `save` commands
are sent. -/
theorem c8_save_sentinel_no_decode (resp : Nat → String) (pe isd : String → Bool)
    (name : String) (cat : List (String × Int))
    (h0 : parseSnapshotsInfo (resp 0) = .ok cat)
    (h1 : dictHasKey cat name = true)
    (h2 : pe (pyDirname ("./" ++ name ++ ".qsp")) = true)
    (h3 : hasSentinel (resp 1) = true) :
    saveInvoke resp pe isd [name] =
      (["monitor snapshot;info", "monitor snapshot;" ++ ("save;name:" ++ name)],
       false, .error (.gdbError "Saving snapshot failed!")) := by
  rw [saveInvoke]
  rw [show getSnapshotsInfo resp [] =
    (["monitor snapshot;info"], parseSnapshotsInfo (resp 0)) from rfl]
  rw [h0]
  dsimp only
  simp only [h1, h2, Bool.not_true, Bool.false_eq_true, if_false]
  rw [if_neg (by decide)]
  rw [if_pos (show ([] : List String).isEmpty = true from rfl)]
  dsimp only
  rw [if_neg (by simp [h2])]
  rw [show snapshotCmd resp ["monitor snapshot;info"] ("save;name:" ++ name) =
    (["monitor snapshot;info", "monitor snapshot;" ++ ("save;name:" ++ name)],
     resp 1) from rfl]
  rw [saveRespHandle, if_pos h3]
  rfl

/-- Witness for C8 at a concrete run: name found, sentinel response. -/
theorem c8_save_sentinel_no_decode_witness :
    parseSnapshotsInfo (twoResp "a:1" "SNAPSHOT ERR" 0) = .ok [("a", 1)] ∧
    dictHasKey [("a", 1)] "a" = true ∧
    truePath (pyDirname ("./" ++ "a" ++ ".qsp")) = true ∧
    hasSentinel (twoResp "a:1" "SNAPSHOT ERR" 1) = true ∧
    saveInvoke (twoResp "a:1" "SNAPSHOT ERR") truePath truePath ["a"] =
      (["monitor snapshot;info", "monitor snapshot;" ++ ("save;name:" ++ "a")],
       false, .error (.gdbError "Saving snapshot failed!")) :=
  ⟨rfl, rfl, rfl, by decide,
   c8_save_sentinel_no_decode (twoResp "a:1" "SNAPSHOT ERR") truePath truePath
     "a" [("a", 1)] rfl rfl rfl (by decide)⟩

/-- C7: `restore` queries a fresh catalog first; an absent name fails with
the client-side not-found error before any `restore` command is sent (the
trace holds only the `info` command); when the name is present the
`restore` command is sent and the operation succeeds exactly when the
response echoes the name and carries no sentinel. -/
theorem c7_restore_catalog_and_echo (resp : Nat → String) (name : String)
    (cat : List (String × Int)) (h0 : parseSnapshotsInfo (resp 0) = .ok cat) :
    (dictHasKey cat name = false →
      restoreInvoke resp [name] =
        (["monitor snapshot;info"],
         .error (.gdbError ("Snapshot " ++ name ++ " not found!")))) ∧
    (dictHasKey cat name = true →
      restoreInvoke resp [name] =
        (["monitor snapshot;info", "monitor snapshot;" ++ ("restore;name:" ++ name)],
         if ((resp 1 != name) || hasSentinel (resp 1)) = true then
           .error (.gdbError ("Restoring snapshot failed! " ++ resp 1))
         else .ok (resp 1)) ∧
      ((restoreInvoke resp [name]).2.isOk = true ↔
        (resp 1 = name ∧ hasSentinel (resp 1) = false))) := by
  have heq0 : restoreInvoke resp [name] =
      (if !dictHasKey cat name then
        (["monitor snapshot;info"],
         .error (.gdbError ("Snapshot " ++ name ++ " not found!")))
      else
        (if (resp 1 != name) || hasSentinel (resp 1) then
          (["monitor snapshot;info", "monitor snapshot;" ++ ("restore;name:" ++ name)],
           .error (.gdbError ("Restoring snapshot failed! " ++ resp 1)))
         else
          (["monitor snapshot;info", "monitor snapshot;" ++ ("restore;name:" ++ name)],
           .ok (resp 1)))) := by
    rw [restoreInvoke, if_neg (by simp)]
    rw [show getSnapshotsInfo resp [] =
      (["monitor snapshot;info"], parseSnapshotsInfo (resp 0)) from rfl]
    rw [h0]
    dsimp only
    rw [show [name].headD "" = name from rfl]
    rw [show snapshotCmd resp ["monitor snapshot;info"] ("restore;name:" ++ name) =
      (["monitor snapshot;info", "monitor snapshot;" ++ ("restore;name:" ++ name)],
       resp 1) from rfl]
  constructor
  · intro h
    rw [heq0]
    simp only [h, Bool.not_false, if_pos]
  · intro h
    have heq : restoreInvoke resp [name] =
        (["monitor snapshot;info", "monitor snapshot;" ++ ("restore;name:" ++ name)],
         if ((resp 1 != name) || hasSentinel (resp 1)) = true then
           .error (.gdbError ("Restoring snapshot failed! " ++ resp 1))
         else .ok (resp 1)) := by
      rw [heq0]
      simp only [h, Bool.not_true, Bool.false_eq_true, if_false]
      split <;> rfl
    refine ⟨heq, ?_⟩
    rw [heq]
    dsimp only
    cases hb : ((resp 1 != name) || hasSentinel (resp 1)) with
    | true =>
      rw [if_pos rfl]
      simp only [Except.isOk]
      constructor
      · intro hfalse; cases hfalse
      · rintro ⟨he, hs⟩
        rw [hs] at hb
        rw [he] at hb
        simp at hb
    | false =>
      rw [if_neg (by simp)]
      simp only [Except.isOk]
      simp only [Bool.or_eq_false_iff] at hb
      constructor
      · intro _
        exact ⟨by simpa using hb.1, hb.2⟩
      · intro _; rfl

/-- Witness for C7: a present name with a clean echo, and an absent name
rejected before the `restore` command is sent. -/
theorem c7_restore_catalog_and_echo_witness :
    parseSnapshotsInfo (twoResp "a:1" "a" 0) = .ok [("a", 1)] ∧
    dictHasKey [("a", 1)] "a" = true ∧
    dictHasKey [("a", 1)] "b" = false ∧
    restoreInvoke (twoResp "a:1" "a") ["a"] =
      (["monitor snapshot;info", "monitor snapshot;" ++ ("restore;name:" ++ "a")],
       if ((twoResp "a:1" "a" 1 != "a") || hasSentinel (twoResp "a:1" "a" 1)) = true then
         .error (.gdbError ("Restoring snapshot failed! " ++ twoResp "a:1" "a" 1))
       else .ok (twoResp "a:1" "a" 1)) ∧
    restoreInvoke (twoResp "a:1" "a") ["b"] =
      (["monitor snapshot;info"],
       .error (.gdbError ("Snapshot " ++ "b" ++ " not found!"))) :=
  ⟨rfl, rfl, by decide,
   ((c7_restore_catalog_and_echo (twoResp "a:1" "a") "a" [("a", 1)] rfl).2 rfl).1,
   (c7_restore_catalog_and_echo (twoResp "a:1" "a") "b" [("a", 1)] rfl).1 (by decide)⟩


theorem loadChunks_getD_succ (B : List Nat) (j : Nat)
    (hj : j < (pyRange 1024 B.length 1024).length) :
    (loadChunks B).getD (j + 1) [] =
      (B.drop ((pyRange 1024 B.length 1024).getD j 0)).take 1024 := by
  rw [loadChunks, List.getD_cons_succ]
  rw [List.getD_eq_getElem?_getD, List.getElem?_map]
  rw [List.getElem?_eq_getElem hj]
  rw [List.getD_eq_getElem?_getD, List.getElem?_eq_getElem hj]
  rfl

theorem loadChunks_length_offs (B : List Nat) :
    (loadChunks B).length = (pyRange 1024 B.length 1024).length + 1 := by
  simp [loadChunks]

/-- C9: on the empty blob, `load` still sends one `state:start` chunk with
an empty hex payload; if its numeric acknowledgment is `0` the session
proceeds straight to `state:done`, and otherwise it aborts with only the
start chunk ever sent. -/
theorem c9_load_empty_blob (resp : Nat → String) (pe : String → Bool)
    (rf : String → List Nat) (fIn : String)
    (hpe : pe fIn = true) (hrf : rf fIn = [])
    (a : Int) (ha : pyIntDec (resp 0) = some a) :
    (loadInvoke resp pe rf [fIn]).1.getD 0 "" =
      "monitor snapshot;load;data:;state:start" ∧
    (a = 0 →
      loadInvoke resp pe rf [fIn] =
        (["monitor snapshot;load;data:;state:start",
          "monitor snapshot;load;state:done"],
         if hasSentinel (resp 1) then .error (.gdbError "Saving snapshot failed!")
         else .ok (resp 1))) ∧
    (a ≠ 0 →
      loadInvoke resp pe rf [fIn] =
        (["monitor snapshot;load;data:;state:start"],
         .error (.gdbError ("Error sending snapshot data (State: start, len_recv: " ++
           toString a ++ ")!")))) := by
  by_cases haz : a = 0
  · have hsa : startAck (resp 0) ((List.take 1024 ([] : List Nat)).length) = .ok () := by
      rw [startAck, ha]
      dsimp only
      rw [if_neg (by simp [haz])]
    have heq : loadInvoke resp pe rf [fIn] =
        (["monitor snapshot;load;data:;state:start",
          "monitor snapshot;load;state:done"],
         if hasSentinel (resp 1) then .error (.gdbError "Saving snapshot failed!")
         else .ok (resp 1)) := by
      rw [loadInvoke.eq_def]
      dsimp only
      rw [if_neg (by decide)]
      simp only [hpe, Bool.not_true, Bool.false_eq_true, if_false]
      rw [hrf]
      rw [show snapshotCmd resp []
        ("load;data:" ++ bytesHex (List.take 1024 ([] : List Nat)) ++ ";state:start") =
        (["monitor snapshot;load;data:;state:start"], resp 0) from rfl]
      dsimp only
      rw [hsa]
      dsimp only
      rw [show contLoop resp [] (pyRange 1024 ([] : List Nat).length 1024)
        ["monitor snapshot;load;data:;state:start"] =
        (["monitor snapshot;load;data:;state:start"], .ok ()) from rfl]
      dsimp only
      rw [show snapshotCmd resp ["monitor snapshot;load;data:;state:start"]
        ("load;state:done" ++ "") =
        (["monitor snapshot;load;data:;state:start",
          "monitor snapshot;load;state:done"], resp 1) from rfl]
      dsimp only
      split <;> rfl
    refine ⟨?_, fun _ => heq, fun hne => absurd haz hne⟩
    rw [heq]
    rfl
  · have hsa : startAck (resp 0) ((List.take 1024 ([] : List Nat)).length) =
        .error (.gdbError ("Error sending snapshot data (State: start, len_recv: " ++
          toString a ++ ")!")) := by
      rw [startAck, ha]
      dsimp only
      rw [if_pos (by simpa using haz)]
    have heq : loadInvoke resp pe rf [fIn] =
        (["monitor snapshot;load;data:;state:start"],
         .error (.gdbError ("Error sending snapshot data (State: start, len_recv: " ++
           toString a ++ ")!"))) := by
      rw [loadInvoke.eq_def]
      dsimp only
      rw [if_neg (by decide)]
      simp only [hpe, Bool.not_true, Bool.false_eq_true, if_false]
      rw [hrf]
      rw [show snapshotCmd resp []
        ("load;data:" ++ bytesHex (List.take 1024 ([] : List Nat)) ++ ";state:start") =
        (["monitor snapshot;load;data:;state:start"], resp 0) from rfl]
      dsimp only
      rw [hsa]
    refine ⟨?_, fun he => absurd he haz, fun _ => heq⟩
    rw [heq]
    rfl

/-- Witness for C9: an empty file with ack `0` proceeds to `done`. -/
theorem c9_load_empty_blob_witness :
    truePath "f" = true ∧ constFile [] "f" = [] ∧
    pyIntDec (twoResp "0" "snap" 0) = some 0 ∧
    (loadInvoke (twoResp "0" "snap") truePath (constFile []) ["f"]).1.getD 0 "" =
      "monitor snapshot;load;data:;state:start" ∧
    loadInvoke (twoResp "0" "snap") truePath (constFile []) ["f"] =
      (["monitor snapshot;load;data:;state:start",
        "monitor snapshot;load;state:done"],
       if hasSentinel (twoResp "0" "snap" 1) then
         .error (.gdbError "Saving snapshot failed!")
       else .ok (twoResp "0" "snap" 1)) :=
  ⟨rfl, rfl, rfl,
   (c9_load_empty_blob (twoResp "0" "snap") truePath (constFile []) "f"
     rfl rfl 0 rfl).1,
   (c9_load_empty_blob (twoResp "0" "snap") truePath (constFile []) "f"
     rfl rfl 0 rfl).2.1 rfl⟩

/-- C2 counterexample: for the empty blob (`n = 0`) the load operation
still sends one data chunk, while the claimed count `⌈n / 1024⌉` is `0`. -/
theorem c2_chunk_count_counterexample :
    (loadChunks []).length = 1 ∧
    ((([] : List Nat)).length + 1023) / 1024 = 0 ∧
    loadInvoke (twoResp "0" "snap") truePath (constFile []) ["f"] =
      (["monitor snapshot;load;data:;state:start",
        "monitor snapshot;load;state:done"], .ok "snap") :=
  ⟨rfl, rfl, rfl⟩

/-- C2 (amended): when every chunk acknowledgment equals the bytes sent,
`load` sends exactly `max 1 ⌈n / 1024⌉` data chunks — `start` first, then
`cont` chunks at offsets `1024, 2048, ...` in ascending order with no
reordering or skipping — followed by the single `state:done` command; the
chunks concatenate back to the blob, their lengths sum to `n`, and the
last chunk length is `n mod 1024` (or `1024` for a positive multiple of
`1024`, or all of `n` when `n < 1024`).  The claim's count `⌈n / 1024⌉`
holds except at `n = 0`, where one empty chunk is still sent. -/
theorem c2_load_chunking_amended (resp : Nat → String) (pe : String → Bool)
    (rf : String → List Nat) (fIn : String) (B : List Nat)
    (hpe : pe fIn = true) (hrf : rf fIn = B)
    (hack : ∀ j, j < (loadChunks B).length →
      pyIntDec (resp j) = some (((loadChunks B).getD j []).length : Int)) :
    loadInvoke resp pe rf [fIn] =
      (loadCmds B ++ [doneCmdStr []],
       if hasSentinel (resp ((loadCmds B).length)) then
         .error (.gdbError "Saving snapshot failed!")
       else .ok (resp ((loadCmds B).length))) ∧
    (loadChunks B).length = max 1 ((B.length + 1023) / 1024) ∧
    (loadChunks B).flatten = B ∧
    ((loadChunks B).map List.length).sum = B.length ∧
    ((loadChunks B).getLastD []).length = lastChunkLenSpec B.length ∧
    chunkOffsets B = List.range' 0 ((loadChunks B).length) 1024 ∧
    loadChunks B = (chunkOffsets B).map (fun i => (B.drop i).take 1024) ∧
    loadCmds B = startCmdStr B :: (pyRange 1024 B.length 1024).map (contCmdStr B) := by
  have hsa : startAck (resp 0) (List.take 1024 B).length = .ok () := by
    have h0 := hack 0 (by rw [loadChunks_length_offs]; omega)
    rw [show (loadChunks B).getD 0 [] = List.take 1024 B from rfl] at h0
    rw [startAck, h0]
    dsimp only
    rw [if_neg (by simp)]
  have hcont : ∀ j, j < (pyRange 1024 B.length 1024).length →
      pyIntDec (resp (([startCmdStr B] : List String).length + j)) =
        some (((B.drop ((pyRange 1024 B.length 1024).getD j 0)).take 1024).length : Int) := by
    intro j hj
    have h' := hack (j + 1) (by rw [loadChunks_length_offs]; omega)
    rw [loadChunks_getD_succ B j hj] at h'
    simpa [Nat.add_comm] using h'
  have hmain : loadInvoke resp pe rf [fIn] =
      (loadCmds B ++ [doneCmdStr []],
       if hasSentinel (resp ((loadCmds B).length)) then
         .error (.gdbError "Saving snapshot failed!")
       else .ok (resp ((loadCmds B).length))) := by
    rw [loadInvoke.eq_def]
    dsimp only
    rw [if_neg (by decide)]
    simp only [hpe, Bool.not_true, Bool.false_eq_true, if_false]
    rw [hrf]
    rw [show snapshotCmd resp []
      ("load;data:" ++ bytesHex (List.take 1024 B) ++ ";state:start") =
      ([startCmdStr B], resp 0) from rfl]
    dsimp only
    rw [hsa]
    dsimp only
    rw [contLoop_ok resp B (pyRange 1024 B.length 1024) [startCmdStr B] hcont]
    dsimp only
    rw [show snapshotCmd resp
      ([startCmdStr B] ++ (pyRange 1024 B.length 1024).map (contCmdStr B))
      ("load;state:done" ++ "") =
      (([startCmdStr B] ++ (pyRange 1024 B.length 1024).map (contCmdStr B)) ++
        [doneCmdStr []],
       resp (([startCmdStr B] ++
         (pyRange 1024 B.length 1024).map (contCmdStr B)).length)) from rfl]
    dsimp only
    rw [show [startCmdStr B] ++ (pyRange 1024 B.length 1024).map (contCmdStr B) =
      loadCmds B from rfl]
    split <;> rfl
  exact ⟨hmain, loadChunks_count B, loadChunks_flatten B, loadChunks_sum B,
    loadChunks_lastLen B, chunkOffsets_eq_range' B, loadChunks_eq_map B, rfl⟩

/-- Witness for C2 (amended) on a three-byte blob with a correct ack. -/
theorem c2_load_chunking_amended_witness :
    truePath "f" = true ∧ constFile [1, 2, 3] "f" = [1, 2, 3] ∧
    (loadChunks [1, 2, 3]).length = 1 ∧
    pyIntDec (listResp ["3", "nm"] 0) =
      some (((loadChunks [1, 2, 3]).getD 0 []).length : Int) ∧
    loadInvoke (listResp ["3", "nm"]) truePath (constFile [1, 2, 3]) ["f"] =
      (loadCmds [1, 2, 3] ++ [doneCmdStr []],
       if hasSentinel (listResp ["3", "nm"] ((loadCmds [1, 2, 3]).length)) then
         .error (.gdbError "Saving snapshot failed!")
       else .ok (listResp ["3", "nm"] ((loadCmds [1, 2, 3]).length))) :=
  ⟨rfl, rfl, rfl, by decide,
   (c2_load_chunking_amended (listResp ["3", "nm"]) truePath (constFile [1, 2, 3])
     "f" [1, 2, 3] rfl rfl (by decide)).1⟩

/-- C3: if the acknowledgments are correct before chunk `k` and the
numeric acknowledgment for chunk `k` differs from the bytes sent, the
session aborts with the chunk-size-mismatch error: the trace holds
exactly the first `k + 1` data-chunk commands — no chunk after `k` and no
`state:done` command is ever sent. -/
theorem c3_chunk_mismatch_aborts (resp : Nat → String) (pe : String → Bool)
    (rf : String → List Nat) (fIn : String) (B : List Nat)
    (hpe : pe fIn = true) (hrf : rf fIn = B)
    (k : Nat) (hk : k < (loadChunks B).length)
    (hprev : ∀ j, j < k →
      pyIntDec (resp j) = some (((loadChunks B).getD j []).length : Int))
    (m : Int) (hm : pyIntDec (resp k) = some m)
    (hne : m ≠ (((loadChunks B).getD k []).length : Int)) :
    loadInvoke resp pe rf [fIn] =
      ((loadCmds B).take (k + 1),
       .error (if k = 0 then
         .gdbError ("Error sending snapshot data (State: start, len_recv: " ++
           toString m ++ ")!")
         else .gdbError "Error sending snapshot data!")) ∧
    doneCmdStr [] ∉ (loadInvoke resp pe rf [fIn]).1 := by
  cases k with
  | zero =>
    have hsa : startAck (resp 0) (List.take 1024 B).length =
        .error (.gdbError ("Error sending snapshot data (State: start, len_recv: " ++
          toString m ++ ")!")) := by
      rw [show ((loadChunks B).getD 0 []) = List.take 1024 B from rfl] at hne
      rw [startAck, hm]
      dsimp only
      rw [if_pos (by simpa using hne)]
    have heq : loadInvoke resp pe rf [fIn] =
        ([startCmdStr B],
         .error (.gdbError ("Error sending snapshot data (State: start, len_recv: " ++
           toString m ++ ")!"))) := by
      rw [loadInvoke.eq_def]
      dsimp only
      rw [if_neg (by decide)]
      simp only [hpe, Bool.not_true, Bool.false_eq_true, if_false]
      rw [hrf]
      rw [show snapshotCmd resp []
        ("load;data:" ++ bytesHex (List.take 1024 B) ++ ";state:start") =
        ([startCmdStr B], resp 0) from rfl]
      dsimp only
      rw [hsa]
    constructor
    · rw [heq, if_pos rfl]
      rfl
    · rw [heq]
      intro hmem
      exact startCmd_ne_done B [] ((List.mem_singleton.mp hmem).symm)
  | succ k' =>
    have hsa : startAck (resp 0) (List.take 1024 B).length = .ok () := by
      have h0 := hprev 0 (Nat.succ_pos k')
      rw [show (loadChunks B).getD 0 [] = List.take 1024 B from rfl] at h0
      rw [startAck, h0]
      dsimp only
      rw [if_neg (by simp)]
    have hk' : k' < (pyRange 1024 B.length 1024).length := by
      rw [loadChunks_length_offs] at hk
      omega
    have hcont : ∀ j, j < k' →
        pyIntDec (resp (([startCmdStr B] : List String).length + j)) =
          some (((B.drop ((pyRange 1024 B.length 1024).getD j 0)).take 1024).length : Int) := by
      intro j hj
      have h' := hprev (j + 1) (by omega)
      rw [loadChunks_getD_succ B j (by omega)] at h'
      simpa [Nat.add_comm] using h'
    have hne' :
        m ≠ (((B.drop ((pyRange 1024 B.length 1024).getD k' 0)).take 1024).length : Int) := by
      rw [← loadChunks_getD_succ B k' hk']
      exact hne
    have hbad : contAck (resp (([startCmdStr B] : List String).length + k'))
        ((B.drop ((pyRange 1024 B.length 1024).getD k' 0)).take 1024).length =
        .error (.gdbError "Error sending snapshot data!") := by
      have hm' : pyIntDec (resp (([startCmdStr B] : List String).length + k')) = some m := by
        rw [show (([startCmdStr B] : List String).length) = 1 from rfl, Nat.add_comm]
        exact hm
      rw [contAck, hm']
      dsimp only
      rw [if_pos (by simpa using hne')]
    have heq : loadInvoke resp pe rf [fIn] =
        ([startCmdStr B] ++ ((pyRange 1024 B.length 1024).take (k' + 1)).map (contCmdStr B),
         .error (.gdbError "Error sending snapshot data!")) := by
      rw [loadInvoke.eq_def]
      dsimp only
      rw [if_neg (by decide)]
      simp only [hpe, Bool.not_true, Bool.false_eq_true, if_false]
      rw [hrf]
      rw [show snapshotCmd resp []
        ("load;data:" ++ bytesHex (List.take 1024 B) ++ ";state:start") =
        ([startCmdStr B], resp 0) from rfl]
      dsimp only
      rw [hsa]
      dsimp only
      rw [contLoop_fail resp B (pyRange 1024 B.length 1024) k' [startCmdStr B] hk' hcont hbad]
    have htr : (loadCmds B).take (k' + 1 + 1) =
        [startCmdStr B] ++ ((pyRange 1024 B.length 1024).take (k' + 1)).map (contCmdStr B) := by
      rw [loadCmds, List.take_succ_cons, List.map_take]
      rfl
    constructor
    · rw [heq, htr, if_neg (Nat.succ_ne_zero k')]
    · rw [heq]
      intro hmem
      dsimp only at hmem
      rcases List.mem_append.mp hmem with h1 | h2
      · exact startCmd_ne_done B [] ((List.mem_singleton.mp h1).symm)
      · rcases List.mem_map.mp h2 with ⟨i, _, he⟩
        exact contCmd_ne_done B i [] he

/-- Witness for C3: a three-byte blob acknowledged with `5` aborts after
the start chunk, and the done command is never sent. -/
theorem c3_chunk_mismatch_aborts_witness :
    truePath "f" = true ∧ constFile [1, 2, 3] "f" = [1, 2, 3] ∧
    0 < (loadChunks [1, 2, 3]).length ∧
    pyIntDec (listResp ["5"] 0) = some 5 ∧
    ((5 : Int) ≠ (((loadChunks [1, 2, 3]).getD 0 []).length : Int)) ∧
    loadInvoke (listResp ["5"]) truePath (constFile [1, 2, 3]) ["f"] =
      ((loadCmds [1, 2, 3]).take 1,
       .error (if 0 = 0 then
         .gdbError ("Error sending snapshot data (State: start, len_recv: " ++
           toString (5 : Int) ++ ")!")
         else .gdbError "Error sending snapshot data!")) ∧
    doneCmdStr [] ∉ (loadInvoke (listResp ["5"]) truePath (constFile [1, 2, 3]) ["f"]).1 :=
  ⟨rfl, rfl, by decide, by decide, by decide,
   (c3_chunk_mismatch_aborts (listResp ["5"]) truePath (constFile [1, 2, 3]) "f"
     [1, 2, 3] rfl rfl 0 (by decide) (fun j hj => absurd hj (Nat.not_lt_zero j))
     5 (by decide) (by decide)).1,
   (c3_chunk_mismatch_aborts (listResp ["5"]) truePath (constFile [1, 2, 3]) "f"
     [1, 2, 3] rfl rfl 0 (by decide) (fun j hj => absurd hj (Nat.not_lt_zero j))
     5 (by decide) (by decide)).2⟩


/-- Witness for C10 at a concrete two-argument invocation. -/
theorem c10_save_two_args_index_error_witness :
    saveInvoke (twoResp "a:1" "ok") truePath truePath ["snap", "/tmp/out"] =
      ([], false, .error .indexError) :=
  c10_save_two_args_index_error (twoResp "a:1" "ok") truePath truePath
    "snap" "/tmp/out"

/-- Witness for C5 (amended) at concrete inputs. -/
theorem c5_duplicate_names_last_wins_witness :
    dictLookup (dictInsert (dictInsert [] "a" 1) "a" 2) "a" = some 2 ∧
    parseSnapshotsInfo "a:1\na:2" = .ok [("a", 2)] :=
  ⟨c5_duplicate_names_last_wins.2.2 [] "a" 1 2,
   c5_duplicate_names_last_wins.2.1⟩

/- End-to-end sanity check on a 1025-byte blob: two data chunks with
correct acks (`1024`, then `1`) load successfully. -/
set_option maxRecDepth 100000 in
example :
    (loadInvoke (listResp ["1024", "1", "nm"]) truePath
      (constFile (List.replicate 1025 7)) ["f"]).2 = .ok "nm" := by rfl

/- End-to-end sanity check: a wrong ack on the second chunk stops the
session after two commands (start and one cont; no done). -/
set_option maxRecDepth 100000 in
example :
    (loadInvoke (listResp ["1024", "9", "nm"]) truePath
      (constFile (List.replicate 1025 7)) ["f"]).1.length = 2 := by rfl

end SnapshotClient
